import Mathlib

/-!
Shallow embedding of the authentication subsystem of the `plusgrade` server:
the auth service (`loginUserService`, `registerUserService`,
`refreshTokenService` in `services/auth.service.ts`) over a relational
`users` table, with models of the external bcrypt and jsonwebtoken
capabilities, and the `isAppError` utility (`utils/isAppError.ts`).
-/

set_option maxHeartbeats 1000000

namespace Plusgrade

/-- JSON-like values appearing in the user objects the services return. -/
inductive JValue where
  | str (s : String)
  | num (n : Nat)
  | null
  | undef
deriving DecidableEq, Repr

/-- Values thrown in the service layer: `AppError` instances (message and
HTTP status code), errors thrown by the jsonwebtoken library
(`JsonWebTokenError`, `TokenExpiredError`), and other unexpected errors
(generic `Error` instances, database failures). -/
inductive JsError where
  | appError (message : String) (statusCode : Nat)
  | jwtError (name : String)
  | otherError (message : String)
deriving DecidableEq, Repr

/-- `e instanceof AppError` for a thrown value. -/
def isAppErrorInstance : JsError → Bool
  | .appError _ _ => true
  | _ => false

/-- A row of the `users` table. -/
structure User where
  id : Nat
  email : String
  password : String
  first_name : String
  last_name : String
  date_of_birth : Option String
  photo_url : Option String
  role : Option String
  last_login : Option Nat
deriving DecidableEq, Repr

/-- Environment configuration (`config/env.ts`): the two signing secrets and
the two expiry durations (`JWT_EXPIRES_IN_SHORT` for access tokens,
`JWT_EXPIRES_IN_LONG` for refresh tokens), durations modelled in seconds. -/
structure Env where
  JWT_SECRET_ACCESS : String
  JWT_SECRET_REFRESH : String
  JWT_EXPIRES_IN_SHORT : Nat
  JWT_EXPIRES_IN_LONG : Nat
deriving DecidableEq, Repr

/-- Suffix test on strings, via the underlying character lists. -/
def strEndsWith (s suffix : String) : Bool :=
  suffix.data.reverse.isPrefixOf s.data.reverse

/-- Model of `bcrypt.hash(p, cost)`: the salted one-way hash embeds the
algorithm tag, the cost factor and the (random, injected) salt in front of
the password material `p`. -/
def bcryptHash (salt : String) (cost : Nat) (p : String) : String :=
  "$2b$" ++ toString cost ++ "$" ++ salt ++ "$" ++ p

/-- Model of `bcrypt.compare(p, h)`: `h` verifies against `p` iff `h` ends
with a separator followed by the password material `p`, as `bcryptHash`
produces for any salt and cost. -/
def bcryptCompare (p h : String) : Bool :=
  strEndsWith h ("$" ++ p)

/-- JWT payload `{ userId, email, role }` as signed by the auth service.
`registerUserService` puts the raw optional input role into the payload,
hence `Option String`. -/
structure Payload where
  userId : Nat
  email : String
  role : Option String
deriving DecidableEq, Repr

/-- A signed JWT: its payload, the signing secret (standing for the
signature), and the absolute expiry instant (issue time plus `expiresIn`). -/
structure Token where
  payload : Payload
  secret : String
  exp : Nat
deriving DecidableEq, Repr

/-- Model of `jwt.sign(payload, secret, { expiresIn })` called at time `now`. -/
def jwtSign (payload : Payload) (secret : String) (expiresIn now : Nat) : Token :=
  { payload := payload, secret := secret, exp := now + expiresIn }

/-- Model of `jwt.verify(token, secret)` at time `now`: throws a
`JsonWebTokenError` on a signature mismatch and a `TokenExpiredError` once
the expiry instant has passed; otherwise returns the decoded payload. -/
def jwtVerify (t : Token) (secret : String) (now : Nat) : Except JsError Payload :=
  if t.secret ≠ secret then .error (.jwtError "JsonWebTokenError")
  else if t.exp ≤ now then .error (.jwtError "TokenExpiredError")
  else .ok t.payload

/-- JS `x || d` on an optional string: `undefined`, `null` and `""` are falsy. -/
def jsOr (x : Option String) (d : String) : String :=
  match x with
  | none => d
  | some s => if s == "" then d else s

/-- JS `x || null` on an optional string. -/
def jsOrNull (x : Option String) : Option String :=
  match x with
  | none => none
  | some s => if s == "" then none else some s

/-- A nullable DB column value as it appears in the returned JSON object. -/
def jNullOpt (x : Option String) : JValue :=
  match x with
  | none => .null
  | some s => .str s

/-- An optional input field placed directly in an object literal: the key is
present, with value `undefined` when the field was omitted. -/
def jUndefOpt (x : Option String) : JValue :=
  match x with
  | none => .undef
  | some s => .str s

/-- Successful result of the three auth service operations:
`{ accessToken, refreshToken, user }`. -/
structure AuthResult where
  accessToken : Token
  refreshToken : Token
  user : List (String × JValue)
deriving DecidableEq, Repr

instance {ε α : Type} [DecidableEq ε] [DecidableEq α] :
    DecidableEq (Except ε α) := fun a b =>
  match a, b with
  | .ok x, .ok y =>
      if h : x = y then isTrue (by rw [h]) else isFalse (by simp [h])
  | .error x, .error y =>
      if h : x = y then isTrue (by rw [h]) else isFalse (by simp [h])
  | .ok _, .error _ => isFalse (by simp)
  | .error _, .ok _ => isFalse (by simp)

/-- The user object literal built by `loginUserService` and
`refreshTokenService` from the fetched row (both build the identical
literal). -/
def userProjection (u : User) : List (String × JValue) :=
  [("id", .num u.id),
   ("email", .str u.email),
   ("first_name", .str u.first_name),
   ("last_name", .str u.last_name),
   ("date_of_birth", jNullOpt u.date_of_birth),
   ("photo_url", jNullOpt u.photo_url),
   ("role", .str (jsOr u.role "user"))]

/-- Input of `registerUserService` (`RegisterUserInput`): `email`, `password`,
`first_name`, `last_name` required; `date_of_birth`, `photo_url`, `role`
handled as optional by the service. -/
structure RegisterUserInput where
  email : String
  password : String
  first_name : String
  last_name : String
  date_of_birth : Option String
  photo_url : Option String
  role : Option String
deriving DecidableEq, Repr

/-- The user object literal built by `registerUserService` from the input and
the returned id: note it carries no `role` key. -/
def registerProjection (newId : Nat) (input : RegisterUserInput) :
    List (String × JValue) :=
  [("id", .num newId),
   ("email", .str input.email),
   ("first_name", .str input.first_name),
   ("last_name", .str input.last_name),
   ("date_of_birth", jUndefOpt input.date_of_birth),
   ("photo_url", jUndefOpt input.photo_url)]

/-- The shared `catch` block of the three services: an `AppError` instance is
re-thrown unchanged; any other thrown value is replaced by a generic
`AppError` with status 500 and the fixed message `generic`. -/
def wrapCatch (generic : String)
    (r : Except JsError AuthResult × List User) :
    Except JsError AuthResult × List User :=
  match r with
  | (Except.error e, s) =>
      if isAppErrorInstance e then (Except.error e, s)
      else (Except.error (.appError generic 500), s)
  | ok => ok

/-- The `try` block of `loginUserService`.  The store is threaded explicitly:
the second component is the state of the `users` table when the block
finishes or throws.  `dbFault` injects a failure of the initial
`pool.query`; `now` is the current time (`NOW()`, and the signing instant). -/
def loginBody (env : Env) (dbFault : Option JsError) (store : List User)
    (now : Nat) (email password : String) :
    Except JsError AuthResult × List User :=
  match dbFault with
  | some e => (.error e, store)
  | none =>
    match (store.filter (fun u => u.email == email)).head? with
    | none => (.error (.appError "Login Failed" 404), store)
    | some user =>
      if bcryptCompare password user.password then
        let store1 := store.map (fun u =>
          if u.id == user.id then { u with last_login := some now } else u)
        if env.JWT_SECRET_ACCESS == "" then
          (.error (.otherError "JWT_SECRET_ACCESS is not defined"), store1)
        else
          let payload : Payload :=
            { userId := user.id, email := user.email,
              role := some (jsOr user.role "user") }
          (.ok { accessToken :=
                   jwtSign payload env.JWT_SECRET_ACCESS env.JWT_EXPIRES_IN_SHORT now,
                 refreshToken :=
                   jwtSign payload env.JWT_SECRET_REFRESH env.JWT_EXPIRES_IN_LONG now,
                 user := userProjection user }, store1)
      else (.error (.appError "Login Failed" 404), store)

/-- `loginUserService(email, password)`: the `try` block wrapped by the
`catch` block with generic message "Failed to log in user". -/
def loginUserService (env : Env) (dbFault : Option JsError) (store : List User)
    (now : Nat) (email password : String) :
    Except JsError AuthResult × List User :=
  wrapCatch "Failed to log in user" (loginBody env dbFault store now email password)

/-- The `try` block of `registerUserService`.  `salt` is the random salt
bcrypt draws internally; `newId` is the id the database assigns to the
inserted row (`RETURNING id`). -/
def registerBody (env : Env) (dbFault : Option JsError) (store : List User)
    (salt : String) (newId : Nat) (now : Nat) (input : RegisterUserInput) :
    Except JsError AuthResult × List User :=
  match dbFault with
  | some e => (.error e, store)
  | none =>
    if (store.filter (fun u => u.email == input.email)).length > 0 then
      (.error (.appError "Email already registered" 409), store)
    else
      let hashedPassword := bcryptHash salt 10 input.password
      let newUser : User :=
        { id := newId, email := input.email, password := hashedPassword,
          first_name := input.first_name, last_name := input.last_name,
          date_of_birth := jsOrNull input.date_of_birth,
          photo_url := jsOrNull input.photo_url,
          role := some "user",
          last_login := none }
      let store1 := store ++ [newUser]
      let payload : Payload :=
        { userId := newId, email := input.email, role := input.role }
      (.ok { accessToken :=
               jwtSign payload env.JWT_SECRET_ACCESS env.JWT_EXPIRES_IN_SHORT now,
             refreshToken :=
               jwtSign payload env.JWT_SECRET_REFRESH env.JWT_EXPIRES_IN_LONG now,
             user := registerProjection newId input }, store1)

/-- `registerUserService(userData)`: the `try` block wrapped by the `catch`
block with generic message "Failed to register user". -/
def registerUserService (env : Env) (dbFault : Option JsError)
    (store : List User) (salt : String) (newId : Nat) (now : Nat)
    (input : RegisterUserInput) :
    Except JsError AuthResult × List User :=
  wrapCatch "Failed to register user"
    (registerBody env dbFault store salt newId now input)

/-- The `try` block of `refreshTokenService`.  NOTE: the source signs the new
access token with `JWT_EXPIRES_IN_LONG` and the new refresh token with
`JWT_EXPIRES_IN_SHORT` (auth.service.ts, the two `jwt.sign` calls in
`refreshTokenService`); the embedding reproduces this faithfully. -/
def refreshBody (env : Env) (dbFault : Option JsError) (store : List User)
    (now : Nat) (refreshToken : Token) :
    Except JsError AuthResult × List User :=
  match jwtVerify refreshToken env.JWT_SECRET_REFRESH now with
  | .error e => (.error e, store)
  | .ok payload =>
    match dbFault with
    | some e => (.error e, store)
    | none =>
      match (store.filter (fun u => u.id == payload.userId)).head? with
      | none => (.error (.appError "Login Failed" 404), store)
      | some user =>
        let newPayload : Payload :=
          { userId := user.id, email := user.email,
            role := some (jsOr user.role "user") }
        (.ok { accessToken :=
                 jwtSign newPayload env.JWT_SECRET_ACCESS env.JWT_EXPIRES_IN_LONG now,
               refreshToken :=
                 jwtSign newPayload env.JWT_SECRET_REFRESH env.JWT_EXPIRES_IN_SHORT now,
               user := userProjection user }, store)

/-- `refreshTokenService(refreshToken)`: the `try` block wrapped by the
`catch` block with generic message "Failed to refresh token". -/
def refreshTokenService (env : Env) (dbFault : Option JsError)
    (store : List User) (now : Nat) (refreshToken : Token) :
    Except JsError AuthResult × List User :=
  wrapCatch "Failed to refresh token"
    (refreshBody env dbFault store now refreshToken)

/-- Arbitrary JS runtime values as passed to `isAppError` (an `unknown`):
an `AppError` instance, a plain object (represented by its property names),
`null`, or a non-object primitive. -/
inductive JsValue where
  | appErrorInst (message : String) (statusCode : Nat)
  | obj (fields : List String)
  | jsNull
  | strV (s : String)
  | numV (n : Nat)
  | boolV (b : Bool)
  | undefV
deriving DecidableEq, Repr

/-- `v instanceof AppError` for an arbitrary runtime value. -/
def jsInstanceOfAppError : JsValue → Bool
  | .appErrorInst _ _ => true
  | _ => false

/-- `typeof v === "object"` (true for objects, `AppError` instances and
`null`). -/
def typeofIsObject : JsValue → Bool
  | .appErrorInst _ _ => true
  | .obj _ => true
  | .jsNull => true
  | _ => false

/-- `v !== null`. -/
def isNotNull : JsValue → Bool
  | .jsNull => false
  | _ => true

/-- `"k" in v`, for the values on which the source evaluates it: an
`AppError` instance has `message` (from `Error`) and `statusCode`; a plain
object has exactly its listed property names. -/
def hasProp (v : JsValue) (k : String) : Bool :=
  match v with
  | .appErrorInst _ _ => k == "message" || k == "statusCode"
  | .obj fields => fields.contains k
  | _ => false

/-- `isAppError` from `src/server/src/utils/isAppError.ts`. -/
def isAppError (v : JsValue) : Bool :=
  jsInstanceOfAppError v ||
    (typeofIsObject v && isNotNull v && hasProp v "message" && hasProp v "statusCode")

/-- The claim's right-hand side, stated independently: `v` is a non-null
object (a plain object or an `AppError` instance). -/
def NonNullObject (v : JsValue) : Prop :=
  (∃ fields, v = JsValue.obj fields) ∨ (∃ m c, v = JsValue.appErrorInst m c)

/-! ### Accessors used to state concrete evaluations -/

/-- The expiry instant of the access token of a successful result. -/
def resultAccessExp (r : Except JsError AuthResult × List User) : Option Nat :=
  match r.1 with
  | .ok res => some res.accessToken.exp
  | .error _ => none

/-- The expiry instant of the refresh token of a successful result. -/
def resultRefreshExp (r : Except JsError AuthResult × List User) : Option Nat :=
  match r.1 with
  | .ok res => some res.refreshToken.exp
  | .error _ => none

/-- The `role` field of the access token payload of a successful result. -/
def resultPayloadRole (r : Except JsError AuthResult × List User) :
    Option (Option String) :=
  match r.1 with
  | .ok res => some res.accessToken.payload.role
  | .error _ => none

/-- The property names of the returned user object of a successful result. -/
def resultUserKeys (r : Except JsError AuthResult × List User) :
    Option (List String) :=
  match r.1 with
  | .ok res => some (res.user.map Prod.fst)
  | .error _ => none

/-- The signing secret of the access token of a successful result. -/
def resultAccessSecret (r : Except JsError AuthResult × List User) :
    Option String :=
  match r.1 with
  | .ok res => some res.accessToken.secret
  | .error _ => none

/-- The signing secret of the refresh token of a successful result. -/
def resultRefreshSecret (r : Except JsError AuthResult × List User) :
    Option String :=
  match r.1 with
  | .ok res => some res.refreshToken.secret
  | .error _ => none

/-- A user row with its mutable `last_login` column blanked, for stating
frame conditions over the remaining columns. -/
def eraseLastLogin (u : User) : User := { u with last_login := none }

/-! ### Concrete fixtures -/

/-- A well-formed environment: distinct non-empty secrets, 15-minute access
expiry, 7-day refresh expiry. -/
def envW : Env :=
  { JWT_SECRET_ACCESS := "acc", JWT_SECRET_REFRESH := "ref",
    JWT_EXPIRES_IN_SHORT := 900, JWT_EXPIRES_IN_LONG := 604800 }

/-- A registered user whose stored password is the bcrypt hash of
"pw123456". -/
def aliceW : User :=
  { id := 1, email := "a@x.com", password := bcryptHash "s1" 10 "pw123456",
    first_name := "A", last_name := "B", date_of_birth := some "2000-01-01",
    photo_url := none, role := some "user", last_login := none }

/-- A refresh token for `aliceW` signed with `envW`'s refresh secret, expiring
at instant 604800. -/
def tokenW : Token :=
  { payload := { userId := 1, email := "a@x.com", role := some "user" },
    secret := "ref", exp := 604800 }

end Plusgrade

namespace Plusgrade

/-- C1: The claim says every token pair has the access token signed with the
short expiry and the refresh token with the long expiry.  `loginUserService`
does this, but `refreshTokenService` swaps the two durations: at the failing
input (a valid refresh call) the new access token expires after
`JWT_EXPIRES_IN_LONG` and the new refresh token after
`JWT_EXPIRES_IN_SHORT`.  This theorem evaluates the code at that input. -/
theorem refreshTokenService_swaps_expiries :
    resultAccessExp (refreshTokenService envW none [aliceW] 0 tokenW)
        = some (0 + envW.JWT_EXPIRES_IN_LONG) ∧
    resultRefreshExp (refreshTokenService envW none [aliceW] 0 tokenW)
        = some (0 + envW.JWT_EXPIRES_IN_SHORT) ∧
    envW.JWT_EXPIRES_IN_SHORT ≠ envW.JWT_EXPIRES_IN_LONG ∧
    resultAccessExp (loginUserService envW none [aliceW] 0 "a@x.com" "pw123456")
        = some (0 + envW.JWT_EXPIRES_IN_SHORT) ∧
    resultRefreshExp (loginUserService envW none [aliceW] 0 "a@x.com" "pw123456")
        = some (0 + envW.JWT_EXPIRES_IN_LONG) ∧
    resultAccessSecret (refreshTokenService envW none [aliceW] 0 tokenW)
        = some envW.JWT_SECRET_ACCESS ∧
    resultRefreshSecret (refreshTokenService envW none [aliceW] 0 tokenW)
        = some envW.JWT_SECRET_REFRESH := by
  decide

/-- C2 counterexample: an expired refresh token (and likewise one signed with
a wrong secret) makes `refreshTokenService` fail with the generic Internal
`AppError` of status 500, not an Unauthorized-class 401 error: the
jsonwebtoken error is not an `AppError`, so the catch block wraps it. -/
theorem refreshTokenService_expired_is_500_not_401 :
    refreshTokenService envW none [aliceW] 10
        { payload := { userId := 1, email := "a@x.com", role := some "user" },
          secret := "ref", exp := 0 }
      = (.error (.appError "Failed to refresh token" 500), [aliceW]) ∧
    refreshTokenService envW none [aliceW] 10
        { payload := { userId := 1, email := "a@x.com", role := some "user" },
          secret := "tampered", exp := 604800 }
      = (.error (.appError "Failed to refresh token" 500), [aliceW]) ∧
    (500 : Nat) ≠ 401 := by
  decide

/-- C2 (amended): for every refresh token whose signature verification fails
or which is expired, `refreshTokenService` fails with the generic Internal
(500) `AppError` "Failed to refresh token" — not a 401 — and leaves the
store unchanged. -/
theorem refreshTokenService_invalid_token_internal_500
    (env : Env) (dbFault : Option JsError) (store : List User) (now : Nat)
    (t : Token) (h : t.secret ≠ env.JWT_SECRET_REFRESH ∨ t.exp ≤ now) :
    refreshTokenService env dbFault store now t
      = (.error (.appError "Failed to refresh token" 500), store) := by
  by_cases hsec : t.secret = env.JWT_SECRET_REFRESH
  · have hexp : t.exp ≤ now := h.resolve_left (fun hne => hne hsec)
    simp [refreshTokenService, refreshBody, jwtVerify, hsec, hexp, wrapCatch,
      isAppErrorInstance]
  · simp [refreshTokenService, refreshBody, jwtVerify, hsec, wrapCatch,
      isAppErrorInstance]

/-- Witness for C2's amended theorem at a concrete expired token. -/
theorem refreshTokenService_invalid_token_internal_500_witness :
    refreshTokenService envW none [] 5
        { payload := { userId := 2, email := "b@x.com", role := none },
          secret := "ref", exp := 3 }
      = (.error (.appError "Failed to refresh token" 500), []) :=
  refreshTokenService_invalid_token_internal_500 envW none [] 5
    { payload := { userId := 2, email := "b@x.com", role := none },
      secret := "ref", exp := 3 }
    (Or.inr (by decide))

/-- C3: The claim (and the service's own JSDoc) says an omitted role defaults
to "user" in the signed payload and the returned projection.  The code does
neither: at the failing input (a register call with no role) the payload's
role is `undefined` and the returned user object has no `role` key at all.
This theorem evaluates the code at that input. -/
theorem registerUserService_role_not_defaulted :
    resultPayloadRole (registerUserService envW none [] "s2" 7 0
        { email := "b@x.com", password := "pw123456", first_name := "A",
          last_name := "B", date_of_birth := some "2000-01-01",
          photo_url := none, role := none }) = some none ∧
    resultUserKeys (registerUserService envW none [] "s2" 7 0
        { email := "b@x.com", password := "pw123456", first_name := "A",
          last_name := "B", date_of_birth := some "2000-01-01",
          photo_url := none, role := none })
      = some ["id", "email", "first_name", "last_name", "date_of_birth",
              "photo_url"] ∧
    "role" ∉ ["id", "email", "first_name", "last_name", "date_of_birth",
              "photo_url"] := by
  decide

/-- C10: `isAppError(v)` is true iff `v` is an `AppError` instance or a
non-null object possessing both a `message` and a `statusCode` property; in
particular it is true for a plain object of that shape that is not an
`AppError` instance. -/
theorem isAppError_iff :
    (∀ v : JsValue,
      isAppError v = true ↔
        ((∃ m c, v = JsValue.appErrorInst m c) ∨
         (NonNullObject v ∧ hasProp v "message" = true ∧
          hasProp v "statusCode" = true))) ∧
    isAppError (JsValue.obj ["message", "statusCode"]) = true ∧
    jsInstanceOfAppError (JsValue.obj ["message", "statusCode"]) = false := by
  refine ⟨fun v => ?_, by decide, by decide⟩
  cases v <;>
    simp [isAppError, jsInstanceOfAppError, typeofIsObject, isNotNull,
      hasProp, NonNullObject]

/-- Witness for C10 at a concrete plain object that is not an `AppError`
instance. -/
theorem isAppError_iff_witness :
    isAppError (JsValue.obj ["statusCode", "message", "extra"]) = true :=
  (isAppError_iff.1 (JsValue.obj ["statusCode", "message", "extra"])).mpr
    (Or.inr ⟨Or.inl ⟨_, rfl⟩, by decide, by decide⟩)

/-- C4: a login that fails because the email is absent and a login that fails
because the password does not verify against the stored hash throw the very
same error — `AppError` "Login Failed" with status 404 — so the failure does
not reveal the cause, no tokens are issued, and the store is unchanged. -/
theorem loginUserService_failure_uniform
    (env : Env) (store : List User) (now : Nat) (email password : String)
    (h : (store.filter (fun u => u.email == email)).head? = none ∨
         ∃ u, (store.filter (fun u => u.email == email)).head? = some u ∧
           bcryptCompare password u.password = false) :
    loginUserService env none store now email password
      = (.error (.appError "Login Failed" 404), store) := by
  rcases h with h | ⟨u, hu, hcmp⟩
  · simp [loginUserService, loginBody, h, wrapCatch, isAppErrorInstance]
  · simp [loginUserService, loginBody, hu, hcmp, wrapCatch, isAppErrorInstance]

/-- Witness for C4 at a concrete wrong-password login. -/
theorem loginUserService_failure_uniform_witness :
    loginUserService envW none [aliceW] 0 "a@x.com" "wrongpw"
      = (.error (.appError "Login Failed" 404), [aliceW]) :=
  loginUserService_failure_uniform envW [aliceW] 0 "a@x.com" "wrongpw"
    (Or.inr ⟨aliceW, by decide, by decide⟩)

/-- C5: registering an email already present in the store fails with the
Conflict (409) `AppError` "Email already registered", inserts no row (the
store is returned unchanged), and if the store held exactly one row for that
email it still does. -/
theorem registerUserService_conflict
    (env : Env) (store : List User) (salt : String) (newId now : Nat)
    (input : RegisterUserInput)
    (h : ∃ u ∈ store, u.email = input.email) :
    registerUserService env none store salt newId now input
      = (.error (.appError "Email already registered" 409), store) ∧
    ((store.filter (fun u => u.email == input.email)).length = 1 →
      ((registerUserService env none store salt newId now input).2.filter
          (fun u => u.email == input.email)).length = 1) := by
  obtain ⟨u, hu, he⟩ := h
  have hmem : u ∈ store.filter (fun v => v.email == input.email) :=
    List.mem_filter.mpr ⟨hu, by simp [he]⟩
  have hpos : 0 < (store.filter (fun v => v.email == input.email)).length :=
    List.length_pos.mpr (List.ne_nil_of_mem hmem)
  have hmain : registerUserService env none store salt newId now input
      = (.error (.appError "Email already registered" 409), store) := by
    simp [registerUserService, registerBody, hpos, wrapCatch, isAppErrorInstance]
  exact ⟨hmain, fun h1 => by rw [hmain]; exact h1⟩

/-- Witness for C5 at a concrete duplicate registration. -/
theorem registerUserService_conflict_witness :
    registerUserService envW none [aliceW] "s3" 9 0
        { email := "a@x.com", password := "other", first_name := "X",
          last_name := "Y", date_of_birth := none, photo_url := none,
          role := none }
      = (.error (.appError "Email already registered" 409), [aliceW]) :=
  (registerUserService_conflict envW [aliceW] "s3" 9 0
    { email := "a@x.com", password := "other", first_name := "X",
      last_name := "Y", date_of_birth := none, photo_url := none,
      role := none }
    ⟨aliceW, by decide, by decide⟩).1

/-- Inversion of the shared catch block on an error result: the thrown value
either was an `AppError` and propagates unchanged, or is replaced by the
generic 500 `AppError` with the fixed message. -/
theorem wrapCatch_error_eq (g : String)
    (r : Except JsError AuthResult × List User) (e : JsError)
    (s' : List User) (h : wrapCatch g r = (.error e, s')) :
    ∃ e0, r = (.error e0, s') ∧
      e = (if isAppErrorInstance e0 then e0 else .appError g 500) := by
  obtain ⟨r1, s0⟩ := r
  cases r1 with
  | ok a => simp [wrapCatch] at h
  | error e0 =>
    rw [show wrapCatch g (Except.error e0, s0)
          = (if isAppErrorInstance e0 then (Except.error e0, s0)
             else (Except.error (.appError g 500), s0)) from rfl] at h
    by_cases hc : isAppErrorInstance e0
    · rw [if_pos hc] at h
      injection h with h1 h2
      injection h1 with h1
      subst h1; subst h2
      exact ⟨e0, rfl, (if_pos hc).symm⟩
    · rw [if_neg hc] at h
      injection h with h1 h2
      injection h1 with h1
      subst h2
      exact ⟨e0, rfl, by rw [if_neg hc]; exact h1.symm⟩

/-- C6: for each of the three services, every error the caller receives is
either exactly the `AppError` thrown inside the try block (classified errors
propagate unchanged) or — when the try block threw anything that is not an
`AppError` — the generic Internal 500 `AppError` whose fixed message
("Failed to log in user" / "Failed to register user" /
"Failed to refresh token") carries no details of the original error. -/
theorem authServices_wrap_errors :
    (∀ (env : Env) (dbFault : Option JsError) (store : List User) (now : Nat)
        (email password : String) (e : JsError) (s' : List User),
      loginUserService env dbFault store now email password
          = (.error e, s') →
      ∃ e0, loginBody env dbFault store now email password = (.error e0, s') ∧
        e = (if isAppErrorInstance e0 then e0
             else .appError "Failed to log in user" 500)) ∧
    (∀ (env : Env) (dbFault : Option JsError) (store : List User)
        (salt : String) (newId now : Nat) (input : RegisterUserInput)
        (e : JsError) (s' : List User),
      registerUserService env dbFault store salt newId now input
          = (.error e, s') →
      ∃ e0, registerBody env dbFault store salt newId now input
          = (.error e0, s') ∧
        e = (if isAppErrorInstance e0 then e0
             else .appError "Failed to register user" 500)) ∧
    (∀ (env : Env) (dbFault : Option JsError) (store : List User) (now : Nat)
        (t : Token) (e : JsError) (s' : List User),
      refreshTokenService env dbFault store now t = (.error e, s') →
      ∃ e0, refreshBody env dbFault store now t = (.error e0, s') ∧
        e = (if isAppErrorInstance e0 then e0
             else .appError "Failed to refresh token" 500)) := by
  refine ⟨?_, ?_, ?_⟩
  · intro env dbFault store now email password e s' h
    exact wrapCatch_error_eq _ _ _ _ h
  · intro env dbFault store salt newId now input e s' h
    exact wrapCatch_error_eq _ _ _ _ h
  · intro env dbFault store now t e s' h
    exact wrapCatch_error_eq _ _ _ _ h

/-- Witness for C6 at a concrete failing login (unknown email). -/
theorem authServices_wrap_errors_witness :
    ∃ e0, loginBody envW none [] 0 "no@x.com" "pw" = (.error e0, []) ∧
      JsError.appError "Login Failed" 404
        = (if isAppErrorInstance e0 then e0
           else .appError "Failed to log in user" 500) :=
  authServices_wrap_errors.1 envW none [] 0 "no@x.com" "pw"
    (.appError "Login Failed" 404) [] (by decide)

/-- The bcrypt model round-trips: a hash of `p` verifies against `p`. -/
theorem bcryptCompare_hash (salt : String) (cost : Nat) (p : String) :
    bcryptCompare p (bcryptHash salt cost p) = true := by
  unfold bcryptCompare bcryptHash strEndsWith
  rw [List.isPrefixOf_iff_prefix, String.append_assoc]
  simp only [String.data_append, List.reverse_append, List.append_assoc]
  exact (List.prefix_append_right_inj _).mpr (List.prefix_append _ _)

/-- The bcrypt model never returns the plaintext: the hash is strictly
longer. -/
theorem bcryptHash_ne (salt : String) (cost : Nat) (p : String) :
    bcryptHash salt cost p ≠ p := by
  intro heq
  have hlen := congrArg String.length heq
  have h4 : "$2b$".length = 4 := rfl
  have h1 : "$".length = 1 := rfl
  simp [bcryptHash, String.length_append] at hlen
  omega

/-- C7: a registration with a fresh email succeeds and appends exactly one
row, whose stored password is the salted bcrypt hash of the plaintext:
`verify(plaintext, storedHash)` is true and the stored hash differs from the
plaintext. -/
theorem registerUserService_hashes_password
    (env : Env) (store : List User) (salt : String) (newId now : Nat)
    (input : RegisterUserInput)
    (hfresh : (store.filter (fun u => u.email == input.email)).length = 0) :
    ∃ res u, registerUserService env none store salt newId now input
        = (.ok res, store ++ [u]) ∧
      u.email = input.email ∧
      u.password = bcryptHash salt 10 input.password ∧
      bcryptCompare input.password u.password = true ∧
      u.password ≠ input.password := by
  have hmain : registerUserService env none store salt newId now input
      = (.ok { accessToken :=
                 jwtSign { userId := newId, email := input.email,
                           role := input.role }
                   env.JWT_SECRET_ACCESS env.JWT_EXPIRES_IN_SHORT now,
               refreshToken :=
                 jwtSign { userId := newId, email := input.email,
                           role := input.role }
                   env.JWT_SECRET_REFRESH env.JWT_EXPIRES_IN_LONG now,
               user := registerProjection newId input },
         store ++ [{ id := newId, email := input.email,
                     password := bcryptHash salt 10 input.password,
                     first_name := input.first_name,
                     last_name := input.last_name,
                     date_of_birth := jsOrNull input.date_of_birth,
                     photo_url := jsOrNull input.photo_url,
                     role := some "user", last_login := none }]) := by
    simp [registerUserService, registerBody, hfresh, wrapCatch]
  exact ⟨_, _, hmain, rfl, rfl, bcryptCompare_hash _ _ _, bcryptHash_ne _ _ _⟩

/-- Witness for C7 at a concrete fresh registration. -/
theorem registerUserService_hashes_password_witness :
    ∃ res u, registerUserService envW none [] "s4" 11 2
        { email := "c@x.com", password := "secretpw", first_name := "C",
          last_name := "D", date_of_birth := none, photo_url := none,
          role := some "admin" }
      = (.ok res, [] ++ [u]) ∧
      u.email = "c@x.com" ∧
      u.password = bcryptHash "s4" 10 "secretpw" ∧
      bcryptCompare "secretpw" u.password = true ∧
      u.password ≠ "secretpw" :=
  registerUserService_hashes_password envW [] "s4" 11 2
    { email := "c@x.com", password := "secretpw", first_name := "C",
      last_name := "D", date_of_birth := none, photo_url := none,
      role := some "admin" }
    (by decide)

/-- Inversion of the shared catch block on a success: the try block produced
exactly that result. -/
theorem wrapCatch_ok_eq (g : String)
    (r : Except JsError AuthResult × List User) (res : AuthResult)
    (s' : List User) (h : wrapCatch g r = (.ok res, s')) :
    r = (.ok res, s') := by
  obtain ⟨r1, s0⟩ := r
  cases r1 with
  | ok a => simpa [wrapCatch] using h
  | error e0 => by_cases hc : isAppErrorInstance e0 <;> simp [wrapCatch, hc] at h

/-- The property names of the login/refresh user object literal. -/
theorem userProjection_keys (u : User) :
    (userProjection u).map Prod.fst
      = ["id", "email", "first_name", "last_name", "date_of_birth",
         "photo_url", "role"] := by
  simp [userProjection]

/-- The property names of the register user object literal. -/
theorem registerProjection_keys (newId : Nat) (input : RegisterUserInput) :
    (registerProjection newId input).map Prod.fst
      = ["id", "email", "first_name", "last_name", "date_of_birth",
         "photo_url"] := by
  simp [registerProjection]

/-- A successful login returns the user object built from the fetched row. -/
theorem loginBody_ok_user (env : Env) (dbFault : Option JsError)
    (store : List User) (now : Nat) (email password : String)
    (res : AuthResult) (s' : List User)
    (hb : loginBody env dbFault store now email password = (.ok res, s')) :
    ∃ user, res.user = userProjection user := by
  cases dbFault with
  | some e => simp [loginBody] at hb
  | none =>
    cases hh : (store.filter (fun u => u.email == email)).head? with
    | none => simp [loginBody, hh] at hb
    | some user =>
      cases hcmp : bcryptCompare password user.password with
      | false => simp [loginBody, hh, hcmp] at hb
      | true =>
        cases hsec : (env.JWT_SECRET_ACCESS == "") with
        | true => simp [loginBody, hh, hcmp, hsec] at hb
        | false =>
          refine ⟨user, ?_⟩
          simp [loginBody, hh, hcmp, hsec] at hb
          rw [← hb.1]

/-- A successful registration returns the user object built from the input
and the returned id. -/
theorem registerBody_ok_user (env : Env) (dbFault : Option JsError)
    (store : List User) (salt : String) (newId now : Nat)
    (input : RegisterUserInput) (res : AuthResult) (s' : List User)
    (hb : registerBody env dbFault store salt newId now input
      = (.ok res, s')) :
    res.user = registerProjection newId input := by
  cases dbFault with
  | some e => simp [registerBody] at hb
  | none =>
    by_cases hex : (store.filter (fun u => u.email == input.email)).length > 0
    · simp [registerBody, hex] at hb
    · simp [registerBody, hex] at hb
      rw [← hb.1]

/-- A successful refresh returns the user object built from the fetched row. -/
theorem refreshBody_ok_user (env : Env) (dbFault : Option JsError)
    (store : List User) (now : Nat) (t : Token) (res : AuthResult)
    (s' : List User)
    (hb : refreshBody env dbFault store now t = (.ok res, s')) :
    ∃ user, res.user = userProjection user := by
  cases hv : jwtVerify t env.JWT_SECRET_REFRESH now with
  | error e => simp [refreshBody, hv] at hb
  | ok payload =>
    cases dbFault with
    | some e => simp [refreshBody, hv] at hb
    | none =>
      cases hh : (store.filter (fun u => u.id == payload.userId)).head? with
      | none => simp [refreshBody, hv, hh] at hb
      | some user =>
        refine ⟨user, ?_⟩
        simp [refreshBody, hv, hh] at hb
        rw [← hb.1]

/-- C8: whenever login, register or refresh succeeds, the returned user
object carries exactly the listed property names — and in particular no
`password` property (neither plaintext nor hash). -/
theorem authServices_no_password_field :
    (∀ (env : Env) (dbFault : Option JsError) (store : List User) (now : Nat)
        (email password : String) (res : AuthResult) (s' : List User),
      loginUserService env dbFault store now email password = (.ok res, s') →
      "password" ∉ res.user.map Prod.fst) ∧
    (∀ (env : Env) (dbFault : Option JsError) (store : List User)
        (salt : String) (newId now : Nat) (input : RegisterUserInput)
        (res : AuthResult) (s' : List User),
      registerUserService env dbFault store salt newId now input
          = (.ok res, s') →
      "password" ∉ res.user.map Prod.fst) ∧
    (∀ (env : Env) (dbFault : Option JsError) (store : List User) (now : Nat)
        (t : Token) (res : AuthResult) (s' : List User),
      refreshTokenService env dbFault store now t = (.ok res, s') →
      "password" ∉ res.user.map Prod.fst) := by
  refine ⟨?_, ?_, ?_⟩
  · intro env dbFault store now email password res s' h
    obtain ⟨user, hu⟩ :=
      loginBody_ok_user env dbFault store now email password res s'
        (wrapCatch_ok_eq _ _ _ _ h)
    rw [hu, userProjection_keys]
    decide
  · intro env dbFault store salt newId now input res s' h
    have hu :=
      registerBody_ok_user env dbFault store salt newId now input res s'
        (wrapCatch_ok_eq _ _ _ _ h)
    rw [hu, registerProjection_keys]
    decide
  · intro env dbFault store now t res s' h
    obtain ⟨user, hu⟩ :=
      refreshBody_ok_user env dbFault store now t res s'
        (wrapCatch_ok_eq _ _ _ _ h)
    rw [hu, userProjection_keys]
    decide

/-- The concrete result of the successful refresh used as C8's witness. -/
def refreshResW : AuthResult :=
  { accessToken :=
      { payload := { userId := 1, email := "a@x.com", role := some "user" },
        secret := "acc", exp := 604800 },
    refreshToken :=
      { payload := { userId := 1, email := "a@x.com", role := some "user" },
        secret := "ref", exp := 900 },
    user := [("id", .num 1), ("email", .str "a@x.com"),
             ("first_name", .str "A"), ("last_name", .str "B"),
             ("date_of_birth", .str "2000-01-01"), ("photo_url", .null),
             ("role", .str "user")] }

/-- Witness for C8 at a concrete successful refresh. -/
theorem authServices_no_password_field_witness :
    "password" ∉ refreshResW.user.map Prod.fst :=
  authServices_no_password_field.2.2 envW none [aliceW] 0 tokenW refreshResW
    [aliceW] (by decide)

/-- An environment whose access secret is empty, so that the explicit
`JWT_SECRET_ACCESS` check in `loginUserService` throws after the
`last_login` update has already run. -/
def envEmptyW : Env :=
  { JWT_SECRET_ACCESS := "", JWT_SECRET_REFRESH := "ref",
    JWT_EXPIRES_IN_SHORT := 900, JWT_EXPIRES_IN_LONG := 604800 }

/-- C9 counterexample: with valid credentials but an empty access secret the
login call throws (the wrapped 500), yet the store has already been mutated:
`last_login` of the matched user is set.  So "a login call that throws an
error leaves the store unchanged" fails as stated. -/
theorem loginUserService_mutates_despite_error :
    loginUserService envEmptyW none [aliceW] 3 "a@x.com" "pw123456"
      = (.error (.appError "Failed to log in user" 500),
         [{ aliceW with last_login := some 3 }]) ∧
    [{ aliceW with last_login := some 3 }] ≠ [aliceW] := by
  decide

/-- Setting `last_login` is invisible after blanking that column. -/
theorem erase_update_eq (uid now : Nat) (v : User) :
    eraseLastLogin
        (if v.id = uid then { v with last_login := some now } else v)
      = eraseLastLogin v := by
  by_cases h : v.id = uid <;> simp [h, eraseLastLogin]

/-- C9 (amended): login touches no column other than `last_login` of any row
(blanking `last_login` makes the final store equal the initial one, in
particular no row is added or removed and no other field changes); on
success the store is exactly the initial store with `last_login` of the
matched user set to the current time; and provided the access secret is
configured (non-empty) a login call that throws leaves the store unchanged —
with an empty access secret the `last_login` update can persist even though
the call throws, as the counterexample shows. -/
theorem loginUserService_frame
    (env : Env) (dbFault : Option JsError) (store : List User) (now : Nat)
    (email password : String) :
    (loginUserService env dbFault store now email password).2.map
        eraseLastLogin = store.map eraseLastLogin ∧
    (∀ res, (loginUserService env dbFault store now email password).1
          = Except.ok res →
      ∃ u, (store.filter (fun v => v.email == email)).head? = some u ∧
        (loginUserService env dbFault store now email password).2
          = store.map (fun v =>
              if v.id == u.id then { v with last_login := some now }
              else v)) ∧
    (env.JWT_SECRET_ACCESS ≠ "" →
      ∀ e, (loginUserService env dbFault store now email password).1
          = Except.error e →
        (loginUserService env dbFault store now email password).2
          = store) := by
  cases dbFault with
  | some e0 =>
    by_cases hc : isAppErrorInstance e0 <;>
      refine ⟨?_, ?_, ?_⟩ <;>
        simp [loginUserService, loginBody, wrapCatch, hc]
  | none =>
    cases hh : (store.filter (fun u => u.email == email)).head? with
    | none =>
      refine ⟨?_, ?_, ?_⟩ <;>
        simp [loginUserService, loginBody, hh, wrapCatch, isAppErrorInstance]
    | some user =>
      cases hcmp : bcryptCompare password user.password with
      | false =>
        refine ⟨?_, ?_, ?_⟩ <;>
          simp [loginUserService, loginBody, hh, hcmp, wrapCatch,
            isAppErrorInstance]
      | true =>
        cases hsec : (env.JWT_SECRET_ACCESS == "") with
        | true =>
          refine ⟨?_, ?_, ?_⟩
          · simp [loginUserService, loginBody, hh, hcmp, hsec, wrapCatch,
              isAppErrorInstance, erase_update_eq]
          · intro res hres
            simp [loginUserService, loginBody, hh, hcmp, hsec, wrapCatch,
              isAppErrorInstance] at hres
          · intro hne e hres
            exact absurd (eq_of_beq hsec) hne
        | false =>
          refine ⟨?_, ?_, ?_⟩
          · simp [loginUserService, loginBody, hh, hcmp, hsec, wrapCatch,
              erase_update_eq]
          · intro res hres
            exact ⟨user, rfl,
              by simp [loginUserService, loginBody, hh, hcmp, hsec,
                wrapCatch]⟩
          · intro hne e hres
            simp [loginUserService, loginBody, hh, hcmp, hsec,
              wrapCatch] at hres

/-- Witness for C9's amended theorem: a failing login (wrong password, secret
configured) leaves the store unchanged. -/
theorem loginUserService_frame_witness :
    (loginUserService envW none [aliceW] 0 "a@x.com" "nope").2 = [aliceW] :=
  (loginUserService_frame envW none [aliceW] 0 "a@x.com" "nope").2.2
    (by decide) (.appError "Login Failed" 404) (by decide)

end Plusgrade
